import Mathlib

/-!
Verification of the content-production-and-publishing pipeline in `main.py`
of the instagram-automation repository.

Modelling conventions (shallow embedding):
* Python text is modelled as `List Char` (named `Str` below); Python `str.split()`,
  `str.splitlines()`, `str.strip()`, `","`-splitting and `" ".join` are modelled by
  executable functions on character lists.
* Every external call (Hugging Face text generation, edge-tts, moviepy rendering,
  Pillow drawing, Cloudinary upload, the Instagram Graph API, Telegram) is a
  parameter of the embedded function: an oracle value describing the response the
  call returns (`none` models a raised exception / missing field).
* Side effects are captured as an event trace (`Ev`): Telegram notifications,
  `print` lines, the TTS backend invocation, the Graph API create/publish requests
  and the `time.sleep` cooldowns, in program order.
* A Python function whose exceptions escape to the caller is modelled with an
  `Option`/`Except` result; a function that catches every exception is total.
-/

namespace Insta

/-- Python text, modelled as a list of characters. -/
abbrev Str := List Char

/-- The whitespace characters recognised by the embedded `str.split()` /
`str.strip()` (ASCII whitespace, as produced by the strings of this pipeline). -/
def isWS (c : Char) : Bool := c = ' ' || c = '\t' || c = '\n' || c = '\r'

/-- Splits a character list at every whitespace character, keeping empty
segments (helper for the embedding of Python `str.split()`). -/
def splitWS : Str → List Str
  | [] => [[]]
  | c :: cs =>
    if isWS c then [] :: splitWS cs
    else (c :: (splitWS cs).headI) :: (splitWS cs).tail

/-- Embedding of Python `text.split()`: whitespace tokenisation, empty
segments dropped. -/
def pySplit (s : Str) : List Str := (splitWS s).filter (fun w => w != [])

/-- Embedding of Python `str.strip()`: drop leading and trailing whitespace. -/
def pyStrip (s : Str) : Str := ((s.dropWhile isWS).reverse.dropWhile isWS).reverse

/-- Worker for the embedding of Python `str.splitlines()`; `acc` holds the
current line reversed. -/
def splitlinesGo (acc : Str) : Str → List Str
  | [] => if acc = [] then [] else [acc.reverse]
  | '\r' :: '\n' :: cs => acc.reverse :: splitlinesGo [] cs
  | '\r' :: cs => acc.reverse :: splitlinesGo [] cs
  | '\n' :: cs => acc.reverse :: splitlinesGo [] cs
  | c :: cs => splitlinesGo (c :: acc) cs

/-- Embedding of Python `str.splitlines()` (no trailing empty line for a
trailing terminator, `[]` for the empty string). -/
def pySplitlines (s : Str) : List Str := splitlinesGo [] s

/-- Embedding of Python `"\n".join(lines)`. -/
def joinNL : List Str → Str
  | [] => []
  | [l] => l
  | l :: ls => l ++ '\n' :: joinNL ls

/-- Embedding of Python `" ".join(words)`. -/
def joinSp : List Str → Str
  | [] => []
  | [w] => w
  | w :: ws => w ++ ' ' :: joinSp ws

/-- Python `"#" in line` (the hashtag marker test of `create_tts` and
`create_reel_video`). -/
def hasHash (l : Str) : Bool := l.contains '#'

/-- Source `main.py` line 160: the spoken text handed to the TTS backend by
`create_tts` — hashtag lines removed, no strip, no fallback. -/
def tts_spoken (text : Str) : Str :=
  joinNL ((pySplitlines text).filter (fun l => !hasHash l))

/-- Source `main.py` lines 181-185: the on-screen script derived in
`create_reel_video` — hashtag lines removed, stripped, falling back to the raw
script when stripping empties it. -/
def reel_script (script : Str) : Str :=
  let s := pyStrip (joinNL ((pySplitlines script).filter (fun l => !hasHash l)))
  if s = [] then script else s

/-- Worker for `split_script_into_chunks`: groups the word list into runs of
`m + 1` words, each run rendered with `" ".join`.  The `fuel` argument (always
at least the list length) makes the recursion structural. -/
def chunkFuel (m : Nat) : Nat → List Str → List Str
  | _, [] => []
  | 0, _ :: _ => []
  | fuel + 1, w :: ws => joinSp (w :: ws.take m) :: chunkFuel m fuel (ws.drop m)

/-- Source `main.py` lines 170-176, `split_script_into_chunks(text, max_words)`:
`words = text.split()`, then `" ".join(words[i : i + max_words])` for
`i in range(0, len(words), max_words)`.  Python raises `ValueError` for step 0,
modelled by `none`. -/
def split_script_into_chunks (text : Str) (max_words : Nat) : Option (List Str) :=
  match max_words with
  | 0 => none
  | m + 1 => some (chunkFuel m (pySplit text).length (pySplit text))

/-- Value of a nonempty all-digit character list (helper for `pyInt`). -/
def digitsVal (l : Str) : Option Nat :=
  if l ≠ [] ∧ l.all Char.isDigit then
    some (l.foldl (fun a c => a * 10 + (c.toNat - 48)) 0)
  else none

/-- Embedding of Python `int(s)` on the strings this pipeline feeds it:
optional surrounding whitespace, optional sign, decimal digits; `none` models
the `ValueError` raised on anything else. -/
def pyInt (s : Str) : Option Int :=
  match pyStrip s with
  | '-' :: ds => (digitsVal ds).map (fun n => -(n : Int))
  | '+' :: ds => (digitsVal ds).map (fun n => (n : Int))
  | ds => (digitsVal ds).map (fun n => (n : Int))

/-- Embedding of Python `random.choice(l)`: returns some element of `l`
(selected by the random draw `k`), `none` (an `IndexError`) on the empty
list. -/
def pyChoice (k : Nat) (l : List α) : Option α := l.get? (k % l.length)

/-- One row of `english_schedule.csv` as read by `csv.DictReader`: the raw
string fields of the `Day`, `Theme` and `SubTopics` columns. -/
structure Row where
  day : Str
  theme : Str
  subTopics : Str

/-- Splits a character list at every occurrence of `sep`, keeping empty
segments (Python `s.split(",")`). -/
def splitOnSep (sep : Char) : Str → List Str
  | [] => [[]]
  | c :: cs =>
    if c = sep then [] :: splitOnSep sep cs
    else (c :: (splitOnSep sep cs).headI) :: (splitOnSep sep cs).tail

/-- Source `main.py` line 98: `[x.strip() for x in r["SubTopics"].split(",") if x.strip()]`. -/
def subtopicsOf (r : Row) : List Str :=
  ((splitOnSep ',' r.subTopics).map pyStrip).filter (fun x => x != [])

/-- Computes `theme, random.choice(subtopics)` for a row (`none` models the
`IndexError` of `random.choice` on an empty list). -/
def rowPick (k : Nat) (r : Row) : Option (Str × Str) :=
  (pyChoice k (subtopicsOf r)).map (fun s => (r.theme, s))

/-- The `for r in rows` loop of `pick_today_theme_and_topic` (lines 95-107):
first row whose parsed `Day` equals `today` wins; when the loop falls through,
`rows[0]` is used.  `none` models an uncaught exception (`int()` failure,
`rows[0]` on an empty table, or `random.choice` on an empty subtopic list). -/
def pickLoop (rows : List Row) (today : Int) (k : Nat) : List Row → Option (Str × Str)
  | [] =>
    match rows with
    | [] => none
    | first :: _ => rowPick k first
  | r :: rest =>
    match pyInt r.day with
    | none => none
    | some d => if d = today then rowPick k r else pickLoop rows today k rest

/-- Source `main.py` lines 87-107, `pick_today_theme_and_topic`, parametrised by the
loaded CSV rows, the computed ISO weekday `today` and the random draw `k`. -/
def pick_today_theme_and_topic (rows : List Row) (today : Int) (k : Nat) :
    Option (Str × Str) :=
  pickLoop rows today k rows

/-- Source `main.py` lines 145-148: the deterministic fallback text of
`generate_piece` (the literal bytes of the source file, apostrophe-free). -/
def fallbackText (kind sub_topic : Str) : Str :=
  kind ++ (" about ").toList ++ sub_topic ++
    (": What does it mean to you? Comment your own example! ðŸ˜Ž #EnglishLearning #EnglishReels").toList

/-- Source `main.py` lines 111-148, `generate_piece(kind, theme, sub_topic)`:
`resp` is the Hugging Face backend response (`none` models a raised
exception).  The stripped response is returned when it has at least 60
characters; otherwise — backend error or too-short text — the templated
fallback is returned.  The function never lets an exception escape
(its result type is plain `Str`). -/
def generate_piece (kind theme sub_topic : Str) (resp : Option Str) : Str :=
  match resp with
  | none => fallbackText kind sub_topic
  | some r =>
    let text := pyStrip r
    if text.length < 60 then fallbackText kind sub_topic else text

/-!  ## Observable effects

Each side-effecting step of the pipeline is recorded as one event, in program
order.  The payload of the error messages keeps the literal prefix written in
the source; the interpolated Python exception/response reprs are elided. -/

/-- One observable effect of the pipeline. -/
inductive Ev where
  /-- Call `send_telegram(msg)`. -/
  | notify (msg : Str)
  /-- Call `print(msg)`. -/
  | log (msg : Str)
  /-- the edge-tts backend invoked on the spoken text -/
  | ttsCall (text : Str)
  /-- Graph API media create call with a VIDEO payload. -/
  | createVideo (videoUrl caption : Str)
  /-- Graph API media create call with an image payload. -/
  | createImage (imageUrl caption : Str)
  /-- Graph API media create call with a carousel-child payload. -/
  | createChild (imageUrl : Str)
  /-- Graph API media create call with the CAROUSEL parent payload. -/
  | createParent (children : List Str) (caption : Str)
  /-- Graph API media publish call with a creation id. -/
  | publish (creationId : Str)
  /-- Call `time.sleep(seconds)`. -/
  | sleep (seconds : Nat)
deriving DecidableEq

/-- The error telegram + print pair emitted by the `except` block of each
publisher function. -/
def failEvents (pfx msg : Str) : List Ev :=
  [Ev.notify (pfx ++ msg), Ev.log (pfx ++ msg)]

def reelErrPfx : Str := ("Posting Reel error: ").toList
def imageErrPfx : Str := ("Posting image error: ").toList
def carouselErrPfx : Str := ("Posting carousel error: ").toList
def createVideoFailedMsg : Str := ("Create video failed").toList
def publishVideoFailedMsg : Str := ("Publish video failed").toList
def createImageFailedMsg : Str := ("Create image failed").toList
def publishImageFailedMsg : Str := ("Publish image failed").toList
def createChildFailedMsg : Str := ("Create carousel child failed").toList
def createParentFailedMsg : Str := ("Create carousel parent failed").toList
def publishCarouselFailedMsg : Str := ("Publish carousel failed").toList

/-- Source `main.py` lines 287-311, `post_video_to_instagram(video_url, caption)`.
`createResp` is the `id` field of the JSON body of the create call (`none` when the
field is absent), `pubOk` is `r2.ok` of the publish call.  Every exception of
the `try` block is caught; the function returns only its event trace. -/
def post_video_to_instagram (video_url caption : Str) (createResp : Option Str)
    (pubOk : Bool) : List Ev :=
  Ev.createVideo video_url caption ::
    match createResp with
    | none => failEvents reelErrPfx createVideoFailedMsg
    | some creation_id =>
      Ev.publish creation_id ::
        (if pubOk then [] else failEvents reelErrPfx publishVideoFailedMsg)

/-- Source `main.py` lines 314-335, `post_image_to_instagram(image_url, caption)`,
modelled exactly like the video path. -/
def post_image_to_instagram (image_url caption : Str) (createResp : Option Str)
    (pubOk : Bool) : List Ev :=
  Ev.createImage image_url caption ::
    match createResp with
    | none => failEvents imageErrPfx createImageFailedMsg
    | some creation_id =>
      Ev.publish creation_id ::
        (if pubOk then [] else failEvents imageErrPfx publishImageFailedMsg)

/-- The `for url in image_urls` child-creation loop of
`post_carousel_to_instagram` (lines 343-351).  `childResp k` is the `id` field
returned for the `k`-th child create call; the loop raises (second component
`none`) at the first child whose response lacks the field, so later children
are not attempted. -/
def carouselChildLoop (childResp : Nat → Option Str) :
    Nat → List Str → List Ev × Option (List Str)
  | _, [] => ([], some [])
  | k, url :: rest =>
    match childResp k with
    | none => ([Ev.createChild url], none)
    | some cid =>
      let p := carouselChildLoop childResp (k + 1) rest
      (Ev.createChild url :: p.1, p.2.map (fun ids => cid :: ids))

/-- Source `main.py` lines 338-376, `post_carousel_to_instagram(image_urls, caption)`:
child containers first, then the CAROUSEL parent referencing all child ids,
then the publish call; any raise lands in the `except` block. -/
def post_carousel_to_instagram (image_urls : List Str) (caption : Str)
    (childResp : Nat → Option Str) (parentResp : Option Str) (pubOk : Bool) :
    List Ev :=
  let p := carouselChildLoop childResp 0 image_urls
  p.1 ++
    match p.2 with
    | none => failEvents carouselErrPfx createChildFailedMsg
    | some child_ids =>
      Ev.createParent child_ids caption ::
        match parentResp with
        | none => failEvents carouselErrPfx createParentFailedMsg
        | some creation_id =>
          Ev.publish creation_id ::
            (if pubOk then [] else failEvents carouselErrPfx publishCarouselFailedMsg)

def ttsFailEvents : List Ev :=
  [Ev.notify (("TTS failed").toList), Ev.log (("TTS error").toList)]

/-- Source `main.py` lines 157-166, `create_tts(text, filename)`: strips hashtag
lines, runs the TTS backend on the result (`ok` says whether that out-of-process
call succeeds), returns the filename or `None` plus the emitted events. -/
def create_tts (text filename : Str) (ok : Bool) : Option Str × List Ev :=
  (if ok then some filename else none,
   Ev.ttsCall (tts_spoken text) :: (if ok then [] else ttsFailEvents))

def reelCreateFailEvents : List Ev :=
  [Ev.notify (("Reel creation failed").toList), Ev.log (("Reel creation error").toList)]

/-- Source `main.py` lines 179-228, `create_reel_video(script, audio_file, output_file)`:
the chunked on-screen script must be nonempty (`raise ValueError("No chunks for
reel")` otherwise); all rendering work is summarised by the `renderOk` oracle.
Returns the output path or `None` plus the emitted events. -/
def create_reel_video (script : Str) (audio_file : Option Str) (output_file : Str)
    (renderOk : Bool) : Option Str × List Ev :=
  let chunks := (split_script_into_chunks (reel_script script) 10).getD []
  if chunks = [] then (none, reelCreateFailEvents)
  else if renderOk then (some output_file, []) else (none, reelCreateFailEvents)

def imageFailEvents : List Ev :=
  [Ev.notify (("Image creation failed").toList), Ev.log (("Image creation error").toList)]

/-- Source `main.py` lines 232-262, `create_image(text, filename, title)`: all Pillow
drawing is summarised by the `ok` oracle; returns the filename or `None`. -/
def create_image (text filename : Str) (title : Option Str) (ok : Bool) :
    Option Str × List Ev :=
  if ok then (some filename, []) else (none, imageFailEvents)

def uploadFailEvents : List Ev :=
  [Ev.notify (("Cloudinary upload failed").toList), Ev.log (("Cloudinary upload error").toList)]

/-- Source `main.py` lines 266-280, `upload_to_cloudinary(path)`: `resp` is the
`secure_url` field of the Cloudinary response (`none` for a transport error or
a response without the field); returns the URL or `None`. -/
def upload_to_cloudinary (path : Str) (resp : Option Str) : Option Str × List Ev :=
  match resp with
  | some url => (some url, [])
  | none => (none, uploadFailEvents)

/-!  ## The orchestrator (`main`, lines 380-454)

`MainOracle` fixes every external response of one run, in the field order of
the calls: the loaded CSV (or `none` for a read/parse failure), the UTC
weekday and the random draw, the seven Hugging Face responses, the TTS /
rendering / drawing outcomes, the Cloudinary responses, and the Graph API
responses of the four posts. -/

/-- Every external response observed during one run of `main`. -/
structure MainOracle where
  /-- the rows read from `english_schedule.csv`; `none` models an exception
  while opening/reading the file -/
  csv : Option (List Row)
  /-- Value of `datetime.datetime.utcnow().weekday() + 1`. -/
  today : Int
  /-- the draw used by `random.choice` -/
  choiceK : Nat
  hf1 : Option Str
  hf2 : Option Str
  hf3 : Option Str
  hfc1 : Option Str
  hfc2 : Option Str
  hfc3 : Option Str
  hfc4 : Option Str
  tts1Ok : Bool
  tts2Ok : Bool
  vid1Ok : Bool
  vid2Ok : Bool
  imgPostOk : Bool
  imgC1Ok : Bool
  imgC2Ok : Bool
  imgC3Ok : Bool
  imgC4Ok : Bool
  upReel1 : Option Str
  upReel2 : Option Str
  upPost : Option Str
  /-- Cloudinary response for the `i`-th carousel-slide upload -/
  upCar : Nat → Option Str
  v1Create : Option Str
  v1PubOk : Bool
  v2Create : Option Str
  v2PubOk : Bool
  iCreate : Option Str
  iPubOk : Bool
  /-- Response `id` field for the carousel child create call number `k`. -/
  cChild : Nat → Option Str
  cParent : Option Str
  cPubOk : Bool

/-- The schedule resolution attempted at the top of `main` (lines 383-389):
reading the CSV composed with `pick_today_theme_and_topic`; `none` is the
caught exception path. -/
def schedOf (o : MainOracle) : Option (Str × Str) :=
  match o.csv with
  | none => none
  | some rows => pick_today_theme_and_topic rows o.today o.choiceK

def script1 (o : MainOracle) (theme sub_topic : Str) : Str :=
  generate_piece (("20-second Reel script").toList) theme sub_topic o.hf1

def script2 (o : MainOracle) (theme sub_topic : Str) : Str :=
  generate_piece (("another 20-second Reel script").toList) theme sub_topic o.hf2

def post_caption (o : MainOracle) (theme sub_topic : Str) : Str :=
  generate_piece (("Static post caption with poll-style CTA").toList) theme sub_topic o.hf3

def carText1 (o : MainOracle) (theme sub_topic : Str) : Str :=
  generate_piece (("Carousel slide 1").toList) theme sub_topic o.hfc1

def carText2 (o : MainOracle) (theme sub_topic : Str) : Str :=
  generate_piece (("Carousel slide 2").toList) theme sub_topic o.hfc2

def carText3 (o : MainOracle) (theme sub_topic : Str) : Str :=
  generate_piece (("Carousel slide 3").toList) theme sub_topic o.hfc3

def carText4 (o : MainOracle) (theme sub_topic : Str) : Str :=
  generate_piece (("Carousel slide 4").toList) theme sub_topic o.hfc4

def audio1 (o : MainOracle) (theme sub_topic : Str) : Option Str :=
  (create_tts (script1 o theme sub_topic) (("reel1_audio.mp3").toList) o.tts1Ok).1

def audio2 (o : MainOracle) (theme sub_topic : Str) : Option Str :=
  (create_tts (script2 o theme sub_topic) (("reel2_audio.mp3").toList) o.tts2Ok).1

def file1 (o : MainOracle) (theme sub_topic : Str) : Option Str :=
  (create_reel_video (script1 o theme sub_topic) (audio1 o theme sub_topic)
    (("reel1.mp4").toList) o.vid1Ok).1

def file2 (o : MainOracle) (theme sub_topic : Str) : Option Str :=
  (create_reel_video (script2 o theme sub_topic) (audio2 o theme sub_topic)
    (("reel2.mp4").toList) o.vid2Ok).1

def postTitle (theme sub_topic : Str) : Str := theme ++ (": ").toList ++ sub_topic

def post_file (o : MainOracle) (theme sub_topic : Str) : Option Str :=
  (create_image (post_caption o theme sub_topic) (("post.png").toList)
    (some (postTitle theme sub_topic)) o.imgPostOk).1

def slideTitle (theme : Str) (i : Nat) : Str :=
  theme ++ (" - Slide ").toList ++ (toString i).toList

def cfile1 (o : MainOracle) (theme sub_topic : Str) : Option Str :=
  (create_image (carText1 o theme sub_topic) (("carousel1.png").toList)
    (some (slideTitle theme 1)) o.imgC1Ok).1

def cfile2 (o : MainOracle) (theme sub_topic : Str) : Option Str :=
  (create_image (carText2 o theme sub_topic) (("carousel2.png").toList)
    (some (slideTitle theme 2)) o.imgC2Ok).1

def cfile3 (o : MainOracle) (theme sub_topic : Str) : Option Str :=
  (create_image (carText3 o theme sub_topic) (("carousel3.png").toList)
    (some (slideTitle theme 3)) o.imgC3Ok).1

def cfile4 (o : MainOracle) (theme sub_topic : Str) : Option Str :=
  (create_image (carText4 o theme sub_topic) (("carousel4.png").toList)
    (some (slideTitle theme 4)) o.imgC4Ok).1

/-- Source `carousel_files` (lines 411-415): the successfully rendered slide files,
in order. -/
def carousel_files (o : MainOracle) (theme sub_topic : Str) : List Str :=
  List.filterMap id
    [cfile1 o theme sub_topic, cfile2 o theme sub_topic,
     cfile3 o theme sub_topic, cfile4 o theme sub_topic]

/-- Events of the generation/TTS/render/draw phase (lines 400-415), in
program order. -/
def preEvs (o : MainOracle) (theme sub_topic : Str) : List Ev :=
  (create_tts (script1 o theme sub_topic) (("reel1_audio.mp3").toList) o.tts1Ok).2 ++
  (create_tts (script2 o theme sub_topic) (("reel2_audio.mp3").toList) o.tts2Ok).2 ++
  (create_reel_video (script1 o theme sub_topic) (audio1 o theme sub_topic)
    (("reel1.mp4").toList) o.vid1Ok).2 ++
  (create_reel_video (script2 o theme sub_topic) (audio2 o theme sub_topic)
    (("reel2.mp4").toList) o.vid2Ok).2 ++
  (create_image (post_caption o theme sub_topic) (("post.png").toList)
    (some (postTitle theme sub_topic)) o.imgPostOk).2 ++
  (create_image (carText1 o theme sub_topic) (("carousel1.png").toList)
    (some (slideTitle theme 1)) o.imgC1Ok).2 ++
  (create_image (carText2 o theme sub_topic) (("carousel2.png").toList)
    (some (slideTitle theme 2)) o.imgC2Ok).2 ++
  (create_image (carText3 o theme sub_topic) (("carousel3.png").toList)
    (some (slideTitle theme 3)) o.imgC3Ok).2 ++
  (create_image (carText4 o theme sub_topic) (("carousel4.png").toList)
    (some (slideTitle theme 4)) o.imgC4Ok).2

/-- One reel posting block of `main` (lines 419-430): upload if the file was
rendered, post and cool down for 120 seconds if the upload returned a URL. -/
def videoPostSeg (script : Str) (file upResp createResp : Option Str) (pubOk : Bool) :
    List Ev :=
  match file with
  | none => []
  | some f =>
    (upload_to_cloudinary f upResp).2 ++
      match (upload_to_cloudinary f upResp).1 with
      | none => []
      | some url => post_video_to_instagram url script createResp pubOk ++ [Ev.sleep 120]

/-- The static-image posting block of `main` (lines 433-437). -/
def imagePostSeg (caption : Str) (file upResp createResp : Option Str) (pubOk : Bool) :
    List Ev :=
  match file with
  | none => []
  | some f =>
    (upload_to_cloudinary f upResp).2 ++
      match (upload_to_cloudinary f upResp).1 with
      | none => []
      | some url => post_image_to_instagram url caption createResp pubOk ++ [Ev.sleep 120]

/-- The `for f in carousel_files[:4]` upload loop (lines 441-445): collects
the URLs of the successful uploads, in order. -/
def carouselUploadLoop (upCar : Nat → Option Str) :
    Nat → List Str → List Str × List Ev
  | _, [] => ([], [])
  | i, f :: fs =>
    let u := upload_to_cloudinary f (upCar i)
    let rest := carouselUploadLoop upCar (i + 1) fs
    ((match u.1 with | some x => x :: rest.1 | none => rest.1), u.2 ++ rest.2)

/-- The carousel caption built at line 447 (source bytes kept verbatim,
apostrophe escaped). -/
def carouselCaption (theme sub_topic : Str) : Str :=
  ("Today\x27s ").toList ++ theme ++ (" carousel on ").toList ++ sub_topic ++
    ("! Save this and comment your score ðŸ‘‡ #EnglishLearning #EnglishTips").toList

/-- The carousel posting block of `main` (lines 440-451): requires at least 4
rendered slides, uploads the first 4, and posts only when all 4 uploads
succeeded.  No cooldown follows (it is the last post of the run). -/
def carouselSeg (files : List Str) (caption : Str) (upCar : Nat → Option Str)
    (childResp : Nat → Option Str) (parentResp : Option Str) (pubOk : Bool) :
    List Ev :=
  if 4 ≤ files.length then
    let p := carouselUploadLoop upCar 0 (files.take 4)
    p.2 ++
      (if p.1.length = 4 then
        post_carousel_to_instagram p.1 caption childResp parentResp pubOk
      else [])
  else []

def startMsg : Str := ("ðŸš€ Script started â€“ generating today\x27s content...").toList

def todayMsgOf (theme sub_topic : Str) : Str :=
  ("Today: Theme = ").toList ++ theme ++ (", Topic = ").toList ++ sub_topic

def schedErrEvents : List Ev :=
  [Ev.notify (("CSV / schedule error").toList), Ev.log (("Schedule error").toList)]

def doneLine : Str := ("Done.").toList

/-- The final telegram + `print("Done.")` of a completed run (lines 453-454). -/
def finalEvs : List Ev :=
  [Ev.notify (("âœ… Daily automation complete â€“ posts should be live on Instagram.").toList),
   Ev.log doneLine]

/-- The body of `main` after a successful schedule resolution (lines 385-454). -/
def mainBody (o : MainOracle) (theme sub_topic : Str) : List Ev :=
  Ev.notify (todayMsgOf theme sub_topic) ::
    (preEvs o theme sub_topic ++
      (videoPostSeg (script1 o theme sub_topic) (file1 o theme sub_topic)
          o.upReel1 o.v1Create o.v1PubOk ++
        (videoPostSeg (script2 o theme sub_topic) (file2 o theme sub_topic)
            o.upReel2 o.v2Create o.v2PubOk ++
          (imagePostSeg (post_caption o theme sub_topic) (post_file o theme sub_topic)
              o.upPost o.iCreate o.iPubOk ++
            (carouselSeg (carousel_files o theme sub_topic)
                (carouselCaption theme sub_topic) o.upCar o.cChild o.cParent o.cPubOk ++
              finalEvs)))))

/-- Source `main.py` lines 380-454, `main()`: the full event trace of one run.  When
schedule resolution fails, `main` notifies and returns early (a normal return:
the exception is caught), so no further event — in particular no final status
line — is emitted. -/
def mainRun (o : MainOracle) : List Ev :=
  Ev.notify startMsg ::
    match schedOf o with
    | none => schedErrEvents
    | some (theme, sub_topic) => mainBody o theme sub_topic

/-!  ## Startup configuration validation (lines 24-58) -/

/-- The environment variables read at module load, each `none` when unset. -/
structure EnvConfig where
  instagramAccessToken : Option Str
  instagramBusinessId : Option Str
  huggingfaceToken : Option Str
  hfModelId : Option Str
  cloudinaryCloudName : Option Str
  cloudinaryApiKey : Option Str
  cloudinaryApiSecret : Option Str
  telegramBotToken : Option Str
  telegramChatId : Option Str

/-- Python truthiness test `not value` for an `os.getenv` result (`None` and
the empty string are falsy). -/
def pyFalsy : Option Str → Bool
  | none => true
  | some s => s.isEmpty

/-- Value of `HF_MODEL_ID = os.getenv("HF_MODEL_ID", "meta-llama/...")`: the default
applies only when the variable is unset. -/
def hfModelIdVal (env : EnvConfig) : Str :=
  match env.hfModelId with
  | none => ("meta-llama/Meta-Llama-3-8B-Instruct").toList
  | some s => s

/-- The `(name, value)` pairs checked by the startup validation loop
(lines 43-53), in source order. -/
def envPairs (env : EnvConfig) : List (Str × Option Str) :=
  [(("INSTAGRAM_ACCESS_TOKEN").toList, env.instagramAccessToken),
   (("INSTAGRAM_BUSINESS_ID").toList, env.instagramBusinessId),
   (("HUGGINGFACE_TOKEN").toList, env.huggingfaceToken),
   (("HF_MODEL_ID").toList, some (hfModelIdVal env)),
   (("CLOUDINARY_CLOUD_NAME").toList, env.cloudinaryCloudName),
   (("CLOUDINARY_API_KEY").toList, env.cloudinaryApiKey),
   (("CLOUDINARY_API_SECRET").toList, env.cloudinaryApiSecret),
   (("TELEGRAM_BOT_TOKEN").toList, env.telegramBotToken),
   (("TELEGRAM_CHAT_ID").toList, env.telegramChatId)]

/-- The `missing` list computed at lines 42-55. -/
def missing (env : EnvConfig) : List Str :=
  ((envPairs env).filter (fun p => pyFalsy p.2)).map (fun p => p.1)

/-- The whole script run: the module-level validation raises `RuntimeError`
(abnormal process exit, `.error`) when any required variable is missing;
otherwise `main()` runs to completion and the process exits normally
(`.ok` with the emitted trace). -/
def runScript (env : EnvConfig) (o : MainOracle) : Except Str (List Ev) :=
  if missing env = [] then .ok (mainRun o)
  else .error (("Missing environment variables").toList)

/-!  ## Properties of the content generator (C3) -/

/-- On the failure path (backend exception or short output) `generate_piece`
returns exactly the templated fallback. -/
lemma generate_piece_fallback (kind theme sub_topic : Str) (resp : Option Str)
    (h : resp = none ∨ ∃ r, resp = some r ∧ (pyStrip r).length < 60) :
    generate_piece kind theme sub_topic resp = fallbackText kind sub_topic := by
  rcases h with h | ⟨r, hr, hlen⟩
  · subst h; rfl
  · subst hr; simp [generate_piece, hlen]

lemma fallbackText_length (kind sub_topic : Str) :
    60 ≤ (fallbackText kind sub_topic).length := by
  have hA : (" about ").toList.length = 7 := by decide
  have hB : 53 ≤ ((": What does it mean to you? Comment your own example! ðŸ˜Ž #EnglishLearning #EnglishReels").toList).length := by
    decide
  simp only [fallbackText, List.length_append]
  omega

/-- C3: for every input to the content generator, if the text-generation
backend raises (`resp = none`) or returns a stripped result shorter than 60
characters, `generate_piece` returns a fallback that is non-empty, contains
the subtopic literally, contains a hashtag character, and has length ≥ 60;
the embedded function is total, so no exception reaches the caller. -/
theorem C3_generator_fallback (kind theme sub_topic : Str) (resp : Option Str)
    (h : resp = none ∨ ∃ r, resp = some r ∧ (pyStrip r).length < 60) :
    generate_piece kind theme sub_topic resp ≠ [] ∧
    (∃ pre post, generate_piece kind theme sub_topic resp = pre ++ sub_topic ++ post) ∧
    '#' ∈ generate_piece kind theme sub_topic resp ∧
    60 ≤ (generate_piece kind theme sub_topic resp).length := by
  rw [generate_piece_fallback kind theme sub_topic resp h]
  refine ⟨?_, ?_, ?_, fallbackText_length kind sub_topic⟩
  · intro hnil
    have := fallbackText_length kind sub_topic
    rw [hnil] at this
    simp at this
  · refine ⟨kind ++ (" about ").toList,
      ((": What does it mean to you? Comment your own example! ðŸ˜Ž #EnglishLearning #EnglishReels").toList), ?_⟩
    simp [fallbackText, List.append_assoc]
  · have hB : '#' ∈ ((": What does it mean to you? Comment your own example! ðŸ˜Ž #EnglishLearning #EnglishReels").toList : Str) := by
      decide
    simp only [fallbackText, List.mem_append]
    tauto

/-- Witness for C3 at a concrete failing backend. -/
theorem C3_generator_fallback_witness :
    ((none : Option Str) = none ∨ ∃ r, (none : Option Str) = some r ∧ (pyStrip r).length < 60) ∧
    (generate_piece (['R']) ([]) (['g', 'o']) none ≠ [] ∧
      (∃ pre post, generate_piece (['R']) ([]) (['g', 'o']) none = pre ++ (['g', 'o']) ++ post) ∧
      '#' ∈ generate_piece (['R']) ([]) (['g', 'o']) none ∧
      60 ≤ (generate_piece (['R']) ([]) (['g', 'o']) none).length) :=
  ⟨Or.inl rfl, C3_generator_fallback (['R']) ([]) (['g', 'o']) none (Or.inl rfl)⟩

/-!  ## The hashtag-stripping asymmetry (C9) -/

/-- C9: on a text all of whose lines contain the hashtag marker, the speech
synthesizer passes the empty string to the TTS backend (no fallback), while
the identical stripping in the video assembler falls back to the raw script. -/
theorem C9_tts_empty_reel_falls_back (text filename : Str) (ok : Bool)
    (h : ∀ l ∈ pySplitlines text, hasHash l = true) :
    tts_spoken text = [] ∧
    Ev.ttsCall [] ∈ (create_tts text filename ok).2 ∧
    reel_script text = text := by
  have hfilter : (pySplitlines text).filter (fun l => !hasHash l) = [] := by
    rw [List.filter_eq_nil_iff]
    intro l hl
    simp [h l hl]
  have hspoken : tts_spoken text = [] := by
    simp [tts_spoken, hfilter, joinNL]
  refine ⟨hspoken, ?_, ?_⟩
  · simp [create_tts, hspoken]
  · simp [reel_script, hfilter, joinNL, pyStrip]

/-- Witness for C9 on a two-line text whose every line has a hashtag. -/
theorem C9_tts_empty_reel_falls_back_witness :
    (∀ l ∈ pySplitlines (['#', 'a', '\n', 'b', '#']), hasHash l = true) ∧
    (tts_spoken (['#', 'a', '\n', 'b', '#']) = [] ∧
      Ev.ttsCall [] ∈ (create_tts (['#', 'a', '\n', 'b', '#']) (['f']) true).2 ∧
      reel_script (['#', 'a', '\n', 'b', '#']) = (['#', 'a', '\n', 'b', '#'])) :=
  ⟨by decide, C9_tts_empty_reel_falls_back (['#', 'a', '\n', 'b', '#']) (['f']) true (by decide)⟩

/-!  ## Publisher video/image path (C2) -/

/-- C2: for the video and image publishers, a create response lacking the
`id` field (`createResp = none`) means the publish endpoint is never called;
the failure is reported through the Notifier, and — the embedded functions
being total, the `except` block having caught the raise — nothing propagates
to the caller. -/
theorem C2_create_without_id_never_publishes
    (video_url caption image_url caption2 : Str) (b1 b2 : Bool) :
    ((∀ cid, Ev.publish cid ∉ post_video_to_instagram video_url caption none b1) ∧
      ∃ m, Ev.notify m ∈ post_video_to_instagram video_url caption none b1) ∧
    ((∀ cid, Ev.publish cid ∉ post_image_to_instagram image_url caption2 none b2) ∧
      ∃ m, Ev.notify m ∈ post_image_to_instagram image_url caption2 none b2) := by
  refine ⟨⟨?_, ⟨reelErrPfx ++ createVideoFailedMsg, ?_⟩⟩,
    ⟨?_, ⟨imageErrPfx ++ createImageFailedMsg, ?_⟩⟩⟩ <;>
    simp [post_video_to_instagram, post_image_to_instagram, failEvents]

/-!  ## Schedule resolver (C4, C6) -/

/-- Applying `random.choice` to a nonempty list returns a member of the list. -/
lemma pyChoice_mem (k : Nat) (l : List α) (h : l ≠ []) :
    ∃ s, pyChoice k l = some s ∧ s ∈ l := by
  have hlen : 0 < l.length := List.length_pos.mpr h
  have hk : k % l.length < l.length := Nat.mod_lt _ hlen
  rcases List.get?_eq_get hk with hget
  exact ⟨l.get ⟨k % l.length, hk⟩, hget, List.get_mem _ _ _⟩

/-- The resolver loop skips every row whose parsed `Day` differs from
`today`. -/
lemma pickLoop_skips (rows : List Row) (today : Int) (k : Nat) (pre l : List Row)
    (hpre : ∀ r ∈ pre, ∃ d, pyInt r.day = some d ∧ d ≠ today) :
    pickLoop rows today k (pre ++ l) = pickLoop rows today k l := by
  induction pre with
  | nil => rfl
  | cons r pre ih =>
    rcases hpre r (List.mem_cons_self r pre) with ⟨d, hd, hne⟩
    rw [List.cons_append, pickLoop, hd]
    simp only [if_neg hne]
    exact ih (fun r' hr' => hpre r' (List.mem_cons_of_mem r hr'))

/-- C4: on a non-empty schedule table none of whose rows matches the computed
weekday (each `Day` parses to an integer different from `today`), the
resolver does not abort: it deterministically returns the theme of the first
row, with a subtopic drawn from the subtopic list of the first row (which must be
nonempty for `random.choice` to be defined, per the data model). -/
theorem C4_no_match_falls_back_to_first_row (first : Row) (rest : List Row)
    (today : Int) (k : Nat)
    (hnone : ∀ r ∈ first :: rest, ∃ d, pyInt r.day = some d ∧ d ≠ today)
    (hsub : subtopicsOf first ≠ []) :
    ∃ s, pick_today_theme_and_topic (first :: rest) today k = some (first.theme, s) ∧
      s ∈ subtopicsOf first := by
  rcases pyChoice_mem k (subtopicsOf first) hsub with ⟨s, hs, hmem⟩
  refine ⟨s, ?_, hmem⟩
  have h := pickLoop_skips (first :: rest) today k (first :: rest) [] hnone
  rw [List.append_nil] at h
  rw [pick_today_theme_and_topic, h]
  simp [pickLoop, rowPick, hs]

/-- Witness for C4: single-row table `{Day: "1", Theme: "T", SubTopics: "a, b"}`
resolved on weekday 3. -/
theorem C4_no_match_falls_back_to_first_row_witness :
    (∀ r ∈ [Row.mk (['1']) (['T']) (['a', ',', ' ', 'b'])],
      ∃ d, pyInt r.day = some d ∧ d ≠ (3 : Int)) ∧
    (subtopicsOf (Row.mk (['1']) (['T']) (['a', ',', ' ', 'b'])) ≠ []) ∧
    ∃ s, pick_today_theme_and_topic [Row.mk (['1']) (['T']) (['a', ',', ' ', 'b'])] 3 0 =
        some ((['T']), s) ∧
      s ∈ subtopicsOf (Row.mk (['1']) (['T']) (['a', ',', ' ', 'b'])) :=
  ⟨by decide, by decide,
    C4_no_match_falls_back_to_first_row (Row.mk (['1']) (['T']) (['a', ',', ' ', 'b'])) [] 3 0
      (by decide) (by decide)⟩

/-- C6: when the `Day` of some row matches the computed weekday (rows before
the first match parsing to a different day), the resolver returns the theme of
that row together with a member of its comma-separated subtopic list. -/
theorem C6_match_returns_row_theme_and_subtopic (pre : List Row) (r : Row)
    (rest : List Row) (today : Int) (k : Nat)
    (hpre : ∀ r' ∈ pre, ∃ d, pyInt r'.day = some d ∧ d ≠ today)
    (hr : pyInt r.day = some today)
    (hsub : subtopicsOf r ≠ []) :
    ∃ s, pick_today_theme_and_topic (pre ++ r :: rest) today k = some (r.theme, s) ∧
      s ∈ subtopicsOf r := by
  rcases pyChoice_mem k (subtopicsOf r) hsub with ⟨s, hs, hmem⟩
  refine ⟨s, ?_, hmem⟩
  rw [pick_today_theme_and_topic,
    pickLoop_skips (pre ++ r :: rest) today k pre (r :: rest) hpre]
  simp [pickLoop, rowPick, hr, hs]

/-- Witness for C6: table row `{Day: "3", Theme: "PV", SubTopics: "g, l"}`
matched on weekday 3 (the end-to-end scenario A shape). -/
theorem C6_match_returns_row_theme_and_subtopic_witness :
    (pyInt (Row.mk (['3']) (['P', 'V']) (['g', ',', 'l'])).day = some 3) ∧
    (subtopicsOf (Row.mk (['3']) (['P', 'V']) (['g', ',', 'l'])) ≠ []) ∧
    ∃ s, pick_today_theme_and_topic
        ([Row.mk (['1']) (['X']) (['x'])] ++ Row.mk (['3']) (['P', 'V']) (['g', ',', 'l']) :: []) 3 1 =
        some ((['P', 'V']), s) ∧
      s ∈ subtopicsOf (Row.mk (['3']) (['P', 'V']) (['g', ',', 'l'])) :=
  ⟨by decide, by decide,
    C6_match_returns_row_theme_and_subtopic [Row.mk (['1']) (['X']) (['x'])]
      (Row.mk (['3']) (['P', 'V']) (['g', ',', 'l'])) [] 3 1 (by decide) (by decide) (by decide)⟩

/-!  ## Caption chunker (C5) -/

lemma splitWS_ne_nil (l : Str) : splitWS l ≠ [] := by
  cases l with
  | nil => simp [splitWS]
  | cons c cs =>
    rw [splitWS]
    split <;> simp

lemma cons_headI_tail {α : Type} [Inhabited α] (l : List α) (h : l ≠ []) :
    l.headI :: l.tail = l := by
  cases l with
  | nil => exact absurd rfl h
  | cons a as => rfl

/-- Every segment produced by `splitWS` is whitespace-free. -/
lemma splitWS_wsFree (l : Str) : ∀ w ∈ splitWS l, ∀ c ∈ w, isWS c = false := by
  induction l with
  | nil => intro w hw; simp [splitWS] at hw; simp [hw]
  | cons c cs ih =>
    intro w hw d hd
    rw [splitWS] at hw
    by_cases hc : isWS c
    · rw [if_pos hc] at hw
      rcases List.mem_cons.mp hw with h | h
      · subst h; simp at hd
      · exact ih w h d hd
    · rw [if_neg hc] at hw
      rcases List.mem_cons.mp hw with h | h
      · subst h
        rcases List.mem_cons.mp hd with h' | h'
        · subst h'; simpa using hc
        · have hhead : (splitWS cs).headI ∈ splitWS cs := by
            cases hsp : splitWS cs with
            | nil => exact absurd hsp (splitWS_ne_nil cs)
            | cons x xs => simp [List.headI]
          exact ih _ hhead d h'
      · exact ih w (List.mem_of_mem_tail h) d hd

/-- Every token of `pySplit` is nonempty and whitespace-free. -/
lemma pySplit_tokens (l : Str) :
    ∀ w ∈ pySplit l, w ≠ [] ∧ ∀ c ∈ w, isWS c = false := by
  intro w hw
  rw [pySplit, List.mem_filter] at hw
  exact ⟨by simpa using hw.2, splitWS_wsFree l w hw.1⟩

/-- Prepending a whitespace-free block merges it into the head segment. -/
lemma splitWS_token_append (t l : Str) (ht : ∀ c ∈ t, isWS c = false) :
    splitWS (t ++ l) = (t ++ (splitWS l).headI) :: (splitWS l).tail := by
  induction t with
  | nil =>
    simp only [List.nil_append]
    exact (cons_headI_tail _ (splitWS_ne_nil l)).symm
  | cons c t ih =>
    have hc : isWS c = false := ht c (List.mem_cons_self c t)
    have hrec := ih (fun d hd => ht d (List.mem_cons_of_mem c hd))
    rw [List.cons_append, splitWS, if_neg (by simp [hc]), hrec]
    simp

/-- Round trip: `" ".join` of nonempty whitespace-free tokens re-splits to the
same tokens. -/
lemma pySplit_joinSp (ts : List Str)
    (h : ∀ w ∈ ts, w ≠ [] ∧ ∀ c ∈ w, isWS c = false) :
    pySplit (joinSp ts) = ts := by
  induction ts with
  | nil => rfl
  | cons t ts ih =>
    rcases h t (List.mem_cons_self t ts) with ⟨hne, hfree⟩
    cases ts with
    | nil =>
      have h2 : splitWS t = [t] := by
        have := splitWS_token_append t [] hfree
        simpa [splitWS] using this
      rw [show joinSp [t] = t from rfl, pySplit, h2,
        List.filter_cons_of_pos (by simpa using hne), List.filter_nil]
    | cons t2 ts2 =>
      have hj : joinSp (t :: t2 :: ts2) = t ++ ' ' :: joinSp (t2 :: ts2) := rfl
      have hsp : splitWS (' ' :: joinSp (t2 :: ts2)) = [] :: splitWS (joinSp (t2 :: ts2)) := by
        rw [splitWS, if_pos (by simp [isWS])]
      have hih := ih (fun w hw => h w (List.mem_cons_of_mem t hw))
      rw [pySplit] at hih
      rw [pySplit, hj, splitWS_token_append t _ hfree, hsp]
      show List.filter _ ((t ++ []) :: splitWS (joinSp (t2 :: ts2))) = t :: t2 :: ts2
      rw [List.append_nil, List.filter_cons_of_pos (by simpa using hne), hih]

/-- The function `chunkFuel` never chunks the empty word list. -/
lemma chunkFuel_nil (m fuel : Nat) : chunkFuel m fuel [] = [] := by
  cases fuel <;> rfl

/-- Flattening the chunks (re-tokenised) restores the original word list. -/
lemma chunkFuel_flatten (m : Nat) (fuel : Nat) (ws : List Str)
    (hfuel : ws.length ≤ fuel)
    (h : ∀ w ∈ ws, w ≠ [] ∧ ∀ c ∈ w, isWS c = false) :
    ((chunkFuel m fuel ws).map pySplit).flatten = ws := by
  induction fuel generalizing ws with
  | zero =>
    have : ws = [] := List.length_eq_zero.mp (Nat.le_zero.mp hfuel)
    subst this; rfl
  | succ fuel ih =>
    cases ws with
    | nil => rfl
    | cons v vs =>
      rw [chunkFuel, List.map_cons, List.flatten_cons]
      have hsub : v :: vs.take m ⊆ v :: vs :=
        List.cons_subset_cons v (List.take_subset m vs)
      have hgrp : ∀ x ∈ v :: vs.take m, x ≠ [] ∧ ∀ c ∈ x, isWS c = false :=
        fun x hx => h x (hsub hx)
      rw [pySplit_joinSp _ hgrp]
      have hlen : (vs.drop m).length ≤ fuel := by
        have h1 : vs.length ≤ fuel := by simpa using hfuel
        have h2 : (vs.drop m).length ≤ vs.length := by
          rw [List.length_drop]; omega
        omega
      rw [ih (vs.drop m) hlen
        (fun x hx => h x (List.mem_cons_of_mem v (List.drop_subset m vs hx)))]
      rw [List.cons_append, List.take_append_drop]

/-- Every chunk except possibly the last holds exactly `m + 1` words. -/
lemma chunkFuel_dropLast_length (m : Nat) (fuel : Nat) (ws : List Str)
    (hfuel : ws.length ≤ fuel)
    (h : ∀ w ∈ ws, w ≠ [] ∧ ∀ c ∈ w, isWS c = false) :
    ∀ ch ∈ (chunkFuel m fuel ws).dropLast, (pySplit ch).length = m + 1 := by
  induction fuel generalizing ws with
  | zero =>
    have : ws = [] := List.length_eq_zero.mp (Nat.le_zero.mp hfuel)
    subst this
    rw [chunkFuel_nil]
    simp
  | succ fuel ih =>
    cases ws with
    | nil =>
      rw [chunkFuel_nil]
      simp
    | cons v vs =>
      rw [chunkFuel]
      cases hrec : chunkFuel m fuel (vs.drop m) with
      | nil => simp
      | cons ch0 chs =>
        intro ch hch
        rw [List.dropLast_cons_of_ne_nil (by simp)] at hch
        rcases List.mem_cons.mp hch with hc | hc
        · subst hc
          have hsub : v :: vs.take m ⊆ v :: vs :=
            List.cons_subset_cons v (List.take_subset m vs)
          have hgrp : ∀ x ∈ v :: vs.take m, x ≠ [] ∧ ∀ c ∈ x, isWS c = false :=
            fun x hx => h x (hsub hx)
          rw [pySplit_joinSp _ hgrp]
          have hdrop : vs.drop m ≠ [] := by
            intro hd
            rw [hd, chunkFuel_nil] at hrec
            exact absurd hrec.symm (List.cons_ne_nil _ _)
          have hm : m ≤ vs.length := by
            by_contra hm
            exact hdrop (List.drop_eq_nil_of_le (by omega))
          simp [List.length_take, Nat.min_eq_left hm]
        · have hlen : (vs.drop m).length ≤ fuel := by
            have h1 : vs.length ≤ fuel := by simpa using hfuel
            have h2 : (vs.drop m).length ≤ vs.length := by
              rw [List.length_drop]; omega
            omega
          have := ih (vs.drop m) hlen
            (fun x hx => h x (List.mem_cons_of_mem v (List.drop_subset m vs hx)))
          rw [hrec] at this
          exact this ch hc

/-- C5: whenever `split_script_into_chunks text n` succeeds (any `n ≥ 1`; for
`n = 0` Python raises `ValueError`, modelled by `none`), re-tokenising the
chunks and concatenating restores exactly the original word sequence — word
order and total word count are preserved — every chunk except possibly the
last holds exactly `n` words, and the empty string yields the empty chunk
sequence. -/
theorem C5_chunker_preserves_words (text : Str) (n : Nat) (chunks : List Str)
    (h : split_script_into_chunks text n = some chunks) :
    ((chunks.map pySplit).flatten = pySplit text) ∧
    (∀ ch ∈ chunks.dropLast, (pySplit ch).length = n) ∧
    (text = [] → chunks = []) := by
  cases n with
  | zero => exact absurd h (by simp [split_script_into_chunks])
  | succ m =>
    rw [split_script_into_chunks] at h
    have hc : chunks = chunkFuel m (pySplit text).length (pySplit text) :=
      (Option.some_injective _ h).symm
    subst hc
    refine ⟨chunkFuel_flatten m _ _ le_rfl (pySplit_tokens text),
      chunkFuel_dropLast_length m _ _ le_rfl (pySplit_tokens text), ?_⟩
    intro htext
    subst htext
    rfl

/-!  ## Publisher carousel path (C1) -/

/-- If some child create call within range returns no `id`, the child loop
raises: it yields no id list, and its events are child create calls only. -/
lemma carouselChildLoop_fail (childResp : Nat → Option Str) (urls : List Str)
    (k0 : Nat) (h : ∃ j, j < urls.length ∧ childResp (k0 + j) = none) :
    (carouselChildLoop childResp k0 urls).2 = none ∧
    ∀ e ∈ (carouselChildLoop childResp k0 urls).1, ∃ u, e = Ev.createChild u := by
  induction urls generalizing k0 with
  | nil =>
    rcases h with ⟨j, hj, _⟩
    simp at hj
  | cons url rest ih =>
    rcases h with ⟨j, hj, hnone⟩
    rw [carouselChildLoop]
    cases hres : childResp k0 with
    | none =>
      refine ⟨rfl, ?_⟩
      intro e he
      simp only [List.mem_singleton] at he
      exact ⟨url, he⟩
    | some cid =>
      have hj0 : j ≠ 0 := by
        intro h0
        rw [h0, Nat.add_zero] at hnone
        rw [hnone] at hres
        exact Option.noConfusion hres
      have hrec : ∃ j', j' < rest.length ∧ childResp (k0 + 1 + j') = none := by
        refine ⟨j - 1, ?_, ?_⟩
        · simp only [List.length_cons] at hj
          omega
        · have : k0 + 1 + (j - 1) = k0 + j := by omega
          rw [this]
          exact hnone
      rcases ih (k0 + 1) hrec with ⟨h2, h1⟩
      refine ⟨?_, ?_⟩
      · simp [h2]
      · intro e he
        rcases List.mem_cons.mp he with he | he
        · exact ⟨url, he⟩
        · exact h1 e he

/-- C1: in the carousel publish path, if any in-range child create call
returns a response lacking the `id` field, then no parent create call is
issued and no publish call is made — the whole trace consists of child
creations and the error report; no partial carousel is posted. -/
theorem C1_partial_child_failure_aborts_carousel (image_urls : List Str)
    (caption : Str) (childResp : Nat → Option Str) (parentResp : Option Str)
    (pubOk : Bool) (h : ∃ j, j < image_urls.length ∧ childResp j = none) :
    (∀ ids cap, Ev.createParent ids cap ∉
      post_carousel_to_instagram image_urls caption childResp parentResp pubOk) ∧
    (∀ cid, Ev.publish cid ∉
      post_carousel_to_instagram image_urls caption childResp parentResp pubOk) := by
  have h0 : ∃ j, j < image_urls.length ∧ childResp (0 + j) = none := by
    simpa using h
  rcases carouselChildLoop_fail childResp image_urls 0 h0 with ⟨h2, h1⟩
  have htr : post_carousel_to_instagram image_urls caption childResp parentResp pubOk =
      (carouselChildLoop childResp 0 image_urls).1 ++
        failEvents carouselErrPfx createChildFailedMsg := by
    simp only [post_carousel_to_instagram, h2]
  rw [htr]
  constructor
  · intro ids cap hmem
    rcases List.mem_append.mp hmem with hm | hm
    · rcases h1 _ hm with ⟨u, hu⟩
      exact Ev.noConfusion hu
    · simp [failEvents] at hm
  · intro cid hmem
    rcases List.mem_append.mp hmem with hm | hm
    · rcases h1 _ hm with ⟨u, hu⟩
      exact Ev.noConfusion hu
    · simp [failEvents] at hm

/-- Witness for C1: four image URLs, children 0, 1 and 2 succeed, child 3
returns a response without the `id` field — exactly 3 of 4 children succeed. -/
theorem C1_partial_child_failure_aborts_carousel_witness :
    (∃ j, j < ([['u', '1'], ['u', '2'], ['u', '3'], ['u', '4']] : List Str).length ∧
      (fun k => if k < 3 then some (['c']) else (none : Option Str)) j = none) ∧
    ((∀ ids cap, Ev.createParent ids cap ∉
      post_carousel_to_instagram [['u', '1'], ['u', '2'], ['u', '3'], ['u', '4']] (['c', 'a'])
        (fun k => if k < 3 then some (['c']) else none) (some (['p'])) true) ∧
    (∀ cid, Ev.publish cid ∉
      post_carousel_to_instagram [['u', '1'], ['u', '2'], ['u', '3'], ['u', '4']] (['c', 'a'])
        (fun k => if k < 3 then some (['c']) else none) (some (['p'])) true)) :=
  ⟨⟨3, by decide, by decide⟩,
    C1_partial_child_failure_aborts_carousel
      [['u', '1'], ['u', '2'], ['u', '3'], ['u', '4']] (['c', 'a'])
      (fun k => if k < 3 then some (['c']) else none) (some (['p'])) true
      ⟨3, by decide, by decide⟩⟩

/-- Witness for C5: `"a bb c d"` chunked with `n = 3`. -/
theorem C5_chunker_preserves_words_witness :
    split_script_into_chunks (['a', ' ', 'b', 'b', ' ', 'c', ' ', 'd']) 3 =
      some [['a', ' ', 'b', 'b', ' ', 'c'], ['d']] ∧
    ((([['a', ' ', 'b', 'b', ' ', 'c'], ['d']] : List Str).map pySplit).flatten =
        pySplit (['a', ' ', 'b', 'b', ' ', 'c', ' ', 'd'])) ∧
    (∀ ch ∈ ([['a', ' ', 'b', 'b', ' ', 'c'], ['d']] : List Str).dropLast,
      (pySplit ch).length = 3) ∧
    ((['a', ' ', 'b', 'b', ' ', 'c', ' ', 'd'] : Str) = [] →
      ([['a', ' ', 'b', 'b', ' ', 'c'], ['d']] : List Str) = []) :=
  ⟨by decide,
    C5_chunker_preserves_words (['a', ' ', 'b', 'b', ' ', 'c', ' ', 'd']) 3
      [['a', ' ', 'b', 'b', ' ', 'c'], ['d']] (by decide)⟩

/-!  ## Cooldown spacing (C8)

A boolean scanner checks the trace: after every publish event, a 120-second
sleep must occur before any further platform API call.  `wellSpaced` is the
property itself; `closedSpaced` additionally requires the sleep to occur
before the end of the scanned segment, which makes it compose under
concatenation. -/

/-- Platform (Graph API) calls. -/
def isApi : Ev → Bool
  | Ev.createVideo _ _ => true
  | Ev.createImage _ _ => true
  | Ev.createChild _ => true
  | Ev.createParent _ _ => true
  | Ev.publish _ => true
  | _ => false

/-- Publish-endpoint calls. -/
def isPub : Ev → Bool
  | Ev.publish _ => true
  | _ => false

/-- The 120-second cooldown event. -/
def isCooldown : Ev → Bool
  | Ev.sleep n => n == 120
  | _ => false

/-- Whether the list contains a publish event. -/
def hasPub (l : List Ev) : Bool := l.any isPub

/-- Scanning forward, a cooldown is reached before any platform API call
(vacuously true if neither occurs). -/
def sleepBeforeApi : List Ev → Bool
  | [] => true
  | e :: l => if isCooldown e then true else if isApi e then false else sleepBeforeApi l

/-- Scanning forward, a cooldown is reached before any platform API call and
before the end of the list. -/
def sleepBeforeApiStrict : List Ev → Bool
  | [] => false
  | e :: l => if isCooldown e then true else if isApi e then false else sleepBeforeApiStrict l

/-- Every publish event is followed by a cooldown before any further API
call. -/
def wellSpaced : List Ev → Bool
  | [] => true
  | e :: l => (if isPub e then sleepBeforeApi l else true) && wellSpaced l

/-- Every publish event is followed by a cooldown within the scanned list
(and before any further API call). -/
def closedSpaced : List Ev → Bool
  | [] => true
  | e :: l => (if isPub e then sleepBeforeApiStrict l else true) && closedSpaced l

lemma isApi_of_isCooldown (e : Ev) (h : isCooldown e = true) : isApi e = false := by
  cases e <;> simp [isCooldown, isApi] at *

lemma sleepBeforeApi_sound (p2 : List Ev) :
    ∀ (l p3 : List Ev) (e2 : Ev), sleepBeforeApi l = true → l = p2 ++ e2 :: p3 →
      isApi e2 = true → ∃ s ∈ p2, isCooldown s = true := by
  induction p2 with
  | nil =>
    intro l p3 e2 hl hdec ha
    subst hdec
    rw [List.nil_append, sleepBeforeApi] at hl
    by_cases hc : isCooldown e2 = true
    · rw [isApi_of_isCooldown e2 hc] at ha
      exact Bool.noConfusion ha
    · rw [if_neg hc, if_pos ha] at hl
      exact Bool.noConfusion hl
  | cons s p2 ih =>
    intro l p3 e2 hl hdec ha
    subst hdec
    rw [List.cons_append, sleepBeforeApi] at hl
    by_cases hc : isCooldown s = true
    · exact ⟨s, List.mem_cons_self s p2, hc⟩
    · rw [if_neg hc] at hl
      by_cases hapi : isApi s = true
      · rw [if_pos hapi] at hl
        exact Bool.noConfusion hl
      · rw [if_neg hapi] at hl
        rcases ih _ p3 e2 hl rfl ha with ⟨w, hw, hcw⟩
        exact ⟨w, List.mem_cons_of_mem s hw, hcw⟩

/-- Soundness of the scanner: on a well-spaced trace, any API event after a
publish event has a cooldown strictly between them. -/
lemma wellSpaced_sound (pre : List Ev) :
    ∀ (l post : List Ev) (e : Ev), wellSpaced l = true → l = pre ++ e :: post →
      isPub e = true →
      ∀ (p2 p3 : List Ev) (e2 : Ev), post = p2 ++ e2 :: p3 → isApi e2 = true →
        ∃ s ∈ p2, isCooldown s = true := by
  induction pre with
  | nil =>
    intro l post e hl hdec hp p2 p3 e2 hpost ha
    subst hdec
    rw [List.nil_append, wellSpaced, hp, if_pos rfl, Bool.and_eq_true] at hl
    exact sleepBeforeApi_sound p2 post p3 e2 hl.1 hpost ha
  | cons x pre ih =>
    intro l post e hl hdec hp p2 p3 e2 hpost ha
    subst hdec
    rw [List.cons_append, wellSpaced, Bool.and_eq_true] at hl
    exact ih _ post e hl.2 rfl hp p2 p3 e2 hpost ha

lemma sleepBeforeApiStrict_append (X Y : List Ev)
    (h : sleepBeforeApiStrict X = true) : sleepBeforeApi (X ++ Y) = true := by
  induction X with
  | nil => exact absurd h (by simp [sleepBeforeApiStrict])
  | cons e X ih =>
    rw [sleepBeforeApiStrict] at h
    rw [List.cons_append, sleepBeforeApi]
    by_cases hc : isCooldown e = true
    · rw [if_pos hc]
    · rw [if_neg hc] at h ⊢
      by_cases hapi : isApi e = true
      · rw [if_pos hapi] at h
        exact Bool.noConfusion h
      · rw [if_neg hapi] at h ⊢
        exact ih h

lemma sleepBeforeApiStrict_append_strict (X Y : List Ev)
    (h : sleepBeforeApiStrict X = true) : sleepBeforeApiStrict (X ++ Y) = true := by
  induction X with
  | nil => exact absurd h (by simp [sleepBeforeApiStrict])
  | cons e X ih =>
    rw [sleepBeforeApiStrict] at h
    rw [List.cons_append, sleepBeforeApiStrict]
    by_cases hc : isCooldown e = true
    · rw [if_pos hc]
    · rw [if_neg hc] at h ⊢
      by_cases hapi : isApi e = true
      · rw [if_pos hapi] at h
        exact Bool.noConfusion h
      · rw [if_neg hapi] at h ⊢
        exact ih h

lemma closedSpaced_append (X Y : List Ev) (hX : closedSpaced X = true)
    (hY : closedSpaced Y = true) : closedSpaced (X ++ Y) = true := by
  induction X with
  | nil => exact hY
  | cons e X ih =>
    rw [closedSpaced, Bool.and_eq_true] at hX
    rw [List.cons_append, closedSpaced, Bool.and_eq_true]
    refine ⟨?_, ih hX.2⟩
    by_cases hp : isPub e = true
    · rw [if_pos hp] at hX ⊢
      exact sleepBeforeApiStrict_append_strict X Y hX.1
    · rw [if_neg hp]

lemma wellSpaced_append (X Y : List Ev) (hX : closedSpaced X = true)
    (hY : wellSpaced Y = true) : wellSpaced (X ++ Y) = true := by
  induction X with
  | nil => exact hY
  | cons e X ih =>
    rw [closedSpaced, Bool.and_eq_true] at hX
    rw [List.cons_append, wellSpaced, Bool.and_eq_true]
    refine ⟨?_, ih hX.2⟩
    by_cases hp : isPub e = true
    · rw [if_pos hp] at hX ⊢
      exact sleepBeforeApiStrict_append X Y hX.1
    · rw [if_neg hp]

/-- A publish-free segment is trivially closed. -/
lemma closedSpaced_of_noPub (X : List Ev) (h : hasPub X = false) :
    closedSpaced X = true := by
  induction X with
  | nil => rfl
  | cons e X ih =>
    rw [hasPub, List.any_cons, Bool.or_eq_false_iff] at h
    rw [closedSpaced, Bool.and_eq_true]
    exact ⟨by simp [h.1], ih h.2⟩

/-- A publish-free segment does not disturb well-spacing appended after it. -/
lemma wellSpaced_noPub_append (X Y : List Ev) (h : hasPub X = false)
    (hY : wellSpaced Y = true) : wellSpaced (X ++ Y) = true :=
  wellSpaced_append X Y (closedSpaced_of_noPub X h) hY

/-- Whether the list contains a platform API call. -/
def hasApi (l : List Ev) : Bool := l.any isApi

lemma sleepBeforeApi_of_noApi (l : List Ev) (h : hasApi l = false) :
    sleepBeforeApi l = true := by
  induction l with
  | nil => rfl
  | cons e l ih =>
    rw [hasApi, List.any_cons, Bool.or_eq_false_iff] at h
    rw [sleepBeforeApi]
    by_cases hc : isCooldown e = true
    · rw [if_pos hc]
    · rw [if_neg hc, if_neg (by simp [h.1]), ih h.2]

lemma wellSpaced_of_noPub (X : List Ev) (h : hasPub X = false) :
    wellSpaced X = true := by
  have := wellSpaced_noPub_append X [] h rfl
  simpa using this

/-!  Per-segment facts feeding the main well-spacing lemma. -/

lemma hasPub_append (X Y : List Ev) :
    hasPub (X ++ Y) = (hasPub X || hasPub Y) := by
  simp [hasPub]

lemma hasPub_failEvents (pfx msg : Str) : hasPub (failEvents pfx msg) = false := by
  simp [failEvents, hasPub, isPub]

lemma hasPub_create_tts (text filename : Str) (ok : Bool) :
    hasPub (create_tts text filename ok).2 = false := by
  cases ok <;> simp [create_tts, ttsFailEvents, hasPub, isPub]

lemma hasPub_create_reel_video (script : Str) (audio_file : Option Str)
    (output_file : Str) (renderOk : Bool) :
    hasPub (create_reel_video script audio_file output_file renderOk).2 = false := by
  rw [create_reel_video]
  split
  · simp [reelCreateFailEvents, hasPub, isPub]
  · split <;> simp [reelCreateFailEvents, hasPub, isPub]

lemma hasPub_create_image (text filename : Str) (title : Option Str) (ok : Bool) :
    hasPub (create_image text filename title ok).2 = false := by
  cases ok <;> simp [create_image, imageFailEvents, hasPub, isPub]

lemma hasPub_upload (path : Str) (resp : Option Str) :
    hasPub (upload_to_cloudinary path resp).2 = false := by
  cases resp <;> simp [upload_to_cloudinary, uploadFailEvents, hasPub, isPub]

lemma hasPub_preEvs (o : MainOracle) (theme sub_topic : Str) :
    hasPub (preEvs o theme sub_topic) = false := by
  rw [preEvs]
  simp only [hasPub_append, hasPub_create_tts, hasPub_create_reel_video,
    hasPub_create_image, Bool.or_self]

lemma hasPub_carouselUploadLoop (upCar : Nat → Option Str) (i : Nat) (fs : List Str) :
    hasPub (carouselUploadLoop upCar i fs).2 = false := by
  induction fs generalizing i with
  | nil => rfl
  | cons f fs ih =>
    rw [carouselUploadLoop]
    simp only [hasPub_append, hasPub_upload, ih, Bool.or_self]

lemma hasPub_carouselChildLoop (childResp : Nat → Option Str) (k : Nat)
    (urls : List Str) : hasPub (carouselChildLoop childResp k urls).1 = false := by
  induction urls generalizing k with
  | nil => rfl
  | cons url rest ih =>
    rw [carouselChildLoop]
    cases childResp k with
    | none => simp [hasPub, isPub]
    | some cid =>
      simp only [hasPub, List.any_cons, Bool.or_eq_false_iff]
      exact ⟨by simp [isPub], ih (k + 1)⟩

/-- Any publisher trace followed by the 120-second sleep is closed. -/
lemma closedSpaced_post_video (url caption : Str) (createResp : Option Str)
    (pubOk : Bool) :
    closedSpaced (post_video_to_instagram url caption createResp pubOk ++
      [Ev.sleep 120]) = true := by
  cases createResp with
  | none =>
    simp [post_video_to_instagram, failEvents, closedSpaced, isPub,
      sleepBeforeApiStrict, isCooldown, isApi]
  | some cid =>
    cases pubOk <;>
      simp [post_video_to_instagram, failEvents, closedSpaced, isPub,
        sleepBeforeApiStrict, isCooldown, isApi]

lemma closedSpaced_post_image (url caption : Str) (createResp : Option Str)
    (pubOk : Bool) :
    closedSpaced (post_image_to_instagram url caption createResp pubOk ++
      [Ev.sleep 120]) = true := by
  cases createResp with
  | none =>
    simp [post_image_to_instagram, failEvents, closedSpaced, isPub,
      sleepBeforeApiStrict, isCooldown, isApi]
  | some cid =>
    cases pubOk <;>
      simp [post_image_to_instagram, failEvents, closedSpaced, isPub,
        sleepBeforeApiStrict, isCooldown, isApi]

lemma closedSpaced_videoPostSeg (script : Str) (file upResp createResp : Option Str)
    (pubOk : Bool) :
    closedSpaced (videoPostSeg script file upResp createResp pubOk) = true := by
  cases file with
  | none => rfl
  | some f =>
    rw [videoPostSeg]
    cases upResp with
    | none =>
      exact closedSpaced_of_noPub _ (by simp [upload_to_cloudinary,
        uploadFailEvents, hasPub, isPub])
    | some url =>
      simp only [upload_to_cloudinary, List.nil_append]
      exact closedSpaced_post_video url script createResp pubOk

lemma closedSpaced_imagePostSeg (caption : Str) (file upResp createResp : Option Str)
    (pubOk : Bool) :
    closedSpaced (imagePostSeg caption file upResp createResp pubOk) = true := by
  cases file with
  | none => rfl
  | some f =>
    rw [imagePostSeg]
    cases upResp with
    | none =>
      exact closedSpaced_of_noPub _ (by simp [upload_to_cloudinary,
        uploadFailEvents, hasPub, isPub])
    | some url =>
      simp only [upload_to_cloudinary, List.nil_append]
      exact closedSpaced_post_image url caption createResp pubOk

lemma hasApi_failEvents (pfx msg : Str) : hasApi (failEvents pfx msg) = false := by
  simp [failEvents, hasApi, isApi]

lemma hasApi_finalEvs : hasApi finalEvs = false := by
  simp [finalEvs, hasApi, isApi]

/-- The carousel publisher trace followed by the end-of-run events is well
spaced: after its publish call (the last API call of the run) only
notification/log events occur. -/
lemma wellSpaced_post_carousel_final (urls : List Str) (caption : Str)
    (childResp : Nat → Option Str) (parentResp : Option Str) (pubOk : Bool) :
    wellSpaced (post_carousel_to_instagram urls caption childResp parentResp pubOk ++
      finalEvs) = true := by
  simp only [post_carousel_to_instagram]
  rw [List.append_assoc]
  apply wellSpaced_noPub_append _ _ (hasPub_carouselChildLoop childResp 0 urls)
  cases (carouselChildLoop childResp 0 urls).2 with
  | none =>
    apply wellSpaced_of_noPub
    rw [hasPub_append, hasPub_failEvents]
    simp [finalEvs, hasPub, isPub]
  | some child_ids =>
    cases parentResp with
    | none =>
      apply wellSpaced_of_noPub
      simp [hasPub, isPub, failEvents, finalEvs]
    | some creation_id =>
      cases pubOk <;>
        simp [wellSpaced, isPub, isApi, isCooldown, sleepBeforeApi, failEvents,
          finalEvs, List.cons_append]

lemma wellSpaced_carouselSeg_final (files : List Str) (caption : Str)
    (upCar : Nat → Option Str) (childResp : Nat → Option Str)
    (parentResp : Option Str) (pubOk : Bool) :
    wellSpaced (carouselSeg files caption upCar childResp parentResp pubOk ++
      finalEvs) = true := by
  rw [carouselSeg]
  by_cases h4 : 4 ≤ files.length
  · rw [if_pos h4]
    simp only [List.append_assoc]
    apply wellSpaced_noPub_append _ _ (hasPub_carouselUploadLoop upCar 0 (files.take 4))
    by_cases hurl : (carouselUploadLoop upCar 0 (files.take 4)).1.length = 4
    · rw [if_pos hurl]
      exact wellSpaced_post_carousel_final _ _ childResp parentResp pubOk
    · rw [if_neg hurl, List.nil_append]
      exact wellSpaced_of_noPub _ (by simp [finalEvs, hasPub, isPub])
  · rw [if_neg h4, List.nil_append]
    exact wellSpaced_of_noPub _ (by simp [finalEvs, hasPub, isPub])

/-- The full trace of every run is well spaced. -/
lemma wellSpaced_mainRun (o : MainOracle) : wellSpaced (mainRun o) = true := by
  rw [mainRun]
  cases hs : schedOf o with
  | none =>
    simp [wellSpaced, schedErrEvents, isPub, sleepBeforeApi]
  | some p =>
    rcases p with ⟨theme, sub_topic⟩
    show wellSpaced (Ev.notify startMsg :: mainBody o theme sub_topic) = true
    rw [wellSpaced, Bool.and_eq_true]
    refine ⟨by simp [isPub], ?_⟩
    rw [mainBody, wellSpaced, Bool.and_eq_true]
    refine ⟨by simp [isPub], ?_⟩
    apply wellSpaced_noPub_append _ _ (hasPub_preEvs o theme sub_topic)
    apply wellSpaced_append _ _ (closedSpaced_videoPostSeg _ _ _ _ _)
    apply wellSpaced_append _ _ (closedSpaced_videoPostSeg _ _ _ _ _)
    apply wellSpaced_append _ _ (closedSpaced_imagePostSeg _ _ _ _ _)
    exact wellSpaced_carouselSeg_final _ _ _ _ _ _

/-- C8: in the trace of every run, whenever a publish call is followed by any
later platform API call (in particular the create or publish call of the next
post), a
120-second cooldown event lies strictly between them: no later post is
attempted before the cooldown that follows the previous post completes.  (The
fixed posting order reel 1, reel 2, static image, carousel is the structure of
`mainRun` itself.) -/
theorem C8_cooldown_between_posts (o : MainOracle) (pre post p2 p3 : List Ev)
    (e e2 : Ev) (hdec : mainRun o = pre ++ e :: post) (hp : isPub e = true)
    (hdec2 : post = p2 ++ e2 :: p3) (ha : isApi e2 = true) :
    ∃ s ∈ p2, isCooldown s = true :=
  wellSpaced_sound pre (mainRun o) post e (wellSpaced_mainRun o) hdec hp
    p2 p3 e2 hdec2 ha

/-!  ## A concrete run used by the trace-level witnesses

Schedule row `{Day: "1", Theme: "T", SubTopics: "a"}` on weekday 1; all seven
generation calls fail (fallback text used); TTS and both reel renders succeed;
all five image renders fail; both reel uploads succeed; both reel posts create
and publish successfully. -/

def oW : MainOracle :=
  ⟨some [Row.mk (['1']) (['T']) (['a'])], 1, 0,
   none, none, none, none, none, none, none,
   true, true, true, true,
   false, false, false, false, false,
   some (['u', '1']), some (['u', '2']), none, fun _ => none,
   some (['c', '1']), true, some (['c', '2']), true, none, true,
   fun _ => none, none, true⟩

def s1W : Str := script1 oW (['T']) (['a'])

def s2W : Str := script2 oW (['T']) (['a'])

/-- The events of the run `oW` preceding the first publish call. -/
def preW : List Ev :=
  [Ev.notify startMsg, Ev.notify (todayMsgOf (['T']) (['a'])),
   Ev.ttsCall [], Ev.ttsCall []] ++
  imageFailEvents ++ imageFailEvents ++ imageFailEvents ++ imageFailEvents ++
  imageFailEvents ++ [Ev.createVideo (['u', '1']) s1W]

/-- The events of the run `oW` following the first publish call. -/
def postW : List Ev :=
  Ev.sleep 120 :: Ev.createVideo (['u', '2']) s2W :: Ev.publish (['c', '2']) ::
    Ev.sleep 120 :: finalEvs

/-- Witness for C8: in the concrete run `oW`, the cooldown between the publish
call of reel 1 and the create call of reel 2. -/
theorem C8_cooldown_between_posts_witness :
    (mainRun oW = preW ++ Ev.publish (['c', '1']) :: postW) ∧
    isPub (Ev.publish (['c', '1'])) = true ∧
    (postW = [Ev.sleep 120] ++ Ev.createVideo (['u', '2']) s2W ::
      (Ev.publish (['c', '2']) :: Ev.sleep 120 :: finalEvs)) ∧
    isApi (Ev.createVideo (['u', '2']) s2W) = true ∧
    ∃ s ∈ [Ev.sleep 120], isCooldown s = true :=
  ⟨by decide, rfl, by decide, rfl,
    C8_cooldown_between_posts oW preW postW [Ev.sleep 120]
      (Ev.publish (['c', '2']) :: Ev.sleep 120 :: finalEvs)
      (Ev.publish (['c', '1'])) (Ev.createVideo (['u', '2']) s2W)
      (by decide) rfl (by decide) rfl⟩

/-!  ## Process exit behaviour (C7) -/

/-- C7: whenever the required configuration is present, the run completes
normally — `runScript` returns the trace of `main()` for every oracle,
including oracles on which every individual post fails — and whenever the
schedule resolves, that trace contains the final status line `"Done."`.
Conversely an abnormal exit (`.error`) happens only in a fatal case: here,
only missing startup configuration (a caught schedule failure returns early
but still exits normally, merely without the final status line). -/
theorem C7_exit_behavior (env : EnvConfig) (o : MainOracle) :
    (missing env = [] →
      runScript env o = .ok (mainRun o) ∧
      (schedOf o ≠ none → Ev.log doneLine ∈ mainRun o)) ∧
    (∀ m, runScript env o = .error m →
      (missing env ≠ [] ∨ schedOf o = none)) := by
  constructor
  · intro hm
    rw [runScript, if_pos hm]
    refine ⟨rfl, ?_⟩
    intro hsched
    rw [mainRun]
    cases hs : schedOf o with
    | none => exact absurd hs hsched
    | some p =>
      rcases p with ⟨t, s⟩
      apply List.mem_cons_of_mem
      simp only [mainBody]
      apply List.mem_cons_of_mem
      apply List.mem_append_right
      apply List.mem_append_right
      apply List.mem_append_right
      apply List.mem_append_right
      apply List.mem_append_right
      simp [finalEvs]
  · intro m hr
    by_cases hm : missing env = []
    · rw [runScript, if_pos hm] at hr
      exact Except.noConfusion hr
    · exact Or.inl hm

/-- A complete configuration for the C7 witness. -/
def envW : EnvConfig :=
  ⟨some (['x']), some (['x']), some (['x']), some (['x']), some (['x']),
   some (['x']), some (['x']), some (['x']), some (['x'])⟩

/-- Witness for C7: with the full configuration `envW` and the run `oW`
(in which the static-image and carousel posts all fail), the process exits
normally and prints the final status line. -/
theorem C7_exit_behavior_witness :
    missing envW = [] ∧ schedOf oW ≠ none ∧
    (runScript envW oW = .ok (mainRun oW) ∧ Ev.log doneLine ∈ mainRun oW) :=
  ⟨by decide, by decide,
    ((C7_exit_behavior envW oW).1 (by decide)).1,
    ((C7_exit_behavior envW oW).1 (by decide)).2 (by decide)⟩

/-!  ## Publisher opacity and unconditional cooldown (C10) -/

/-- Oracle `o` with the reel 1 Graph API responses replaced: `cr` for the `id`
field of the create call, `b` for the HTTP status of the publish call. -/
def setV1 (o : MainOracle) (cr : Option Str) (b : Bool) : MainOracle :=
  ⟨o.csv, o.today, o.choiceK, o.hf1, o.hf2, o.hf3, o.hfc1, o.hfc2, o.hfc3, o.hfc4,
   o.tts1Ok, o.tts2Ok, o.vid1Ok, o.vid2Ok,
   o.imgPostOk, o.imgC1Ok, o.imgC2Ok, o.imgC3Ok, o.imgC4Ok,
   o.upReel1, o.upReel2, o.upPost, o.upCar,
   cr, b, o.v2Create, o.v2PubOk, o.iCreate, o.iPubOk,
   o.cChild, o.cParent, o.cPubOk⟩

/-- Oracle `o` with the reel 2 Graph API responses replaced. -/
def setV2 (o : MainOracle) (cr : Option Str) (b : Bool) : MainOracle :=
  ⟨o.csv, o.today, o.choiceK, o.hf1, o.hf2, o.hf3, o.hfc1, o.hfc2, o.hfc3, o.hfc4,
   o.tts1Ok, o.tts2Ok, o.vid1Ok, o.vid2Ok,
   o.imgPostOk, o.imgC1Ok, o.imgC2Ok, o.imgC3Ok, o.imgC4Ok,
   o.upReel1, o.upReel2, o.upPost, o.upCar,
   o.v1Create, o.v1PubOk, cr, b, o.iCreate, o.iPubOk,
   o.cChild, o.cParent, o.cPubOk⟩

/-- Oracle `o` with the static-image post Graph API responses replaced. -/
def setI (o : MainOracle) (cr : Option Str) (b : Bool) : MainOracle :=
  ⟨o.csv, o.today, o.choiceK, o.hf1, o.hf2, o.hf3, o.hfc1, o.hfc2, o.hfc3, o.hfc4,
   o.tts1Ok, o.tts2Ok, o.vid1Ok, o.vid2Ok,
   o.imgPostOk, o.imgC1Ok, o.imgC2Ok, o.imgC3Ok, o.imgC4Ok,
   o.upReel1, o.upReel2, o.upPost, o.upCar,
   o.v1Create, o.v1PubOk, o.v2Create, o.v2PubOk, cr, b,
   o.cChild, o.cParent, o.cPubOk⟩

/-- A reel posting block with a rendered file and a successful upload reduces
to the publisher trace followed by the cooldown. -/
lemma videoPostSeg_some (script f url : Str) (cr : Option Str) (b : Bool) :
    videoPostSeg script (some f) (some url) cr b =
      post_video_to_instagram url script cr b ++ [Ev.sleep 120] := by
  rw [videoPostSeg]
  simp [upload_to_cloudinary]

/-- The static-image posting block with a rendered file and a successful
upload reduces to the publisher trace followed by the cooldown. -/
lemma imagePostSeg_some (caption f url : Str) (cr : Option Str) (b : Bool) :
    imagePostSeg caption (some f) (some url) cr b =
      post_image_to_instagram url caption cr b ++ [Ev.sleep 120] := by
  rw [imagePostSeg]
  simp [upload_to_cloudinary]

/-- On a resolved schedule, the run trace with the reel 1 responses replaced,
written with every other component expressed over the original oracle `o`
(the replacement touches only the reel 1 create/publish responses). -/
lemma mainRun_setV1 (o : MainOracle) (theme sub_topic : Str)
    (hs : schedOf o = some (theme, sub_topic)) (cr : Option Str) (b : Bool) :
    mainRun (setV1 o cr b) =
      Ev.notify startMsg :: Ev.notify (todayMsgOf theme sub_topic) ::
        (preEvs o theme sub_topic ++
          (videoPostSeg (script1 o theme sub_topic) (file1 o theme sub_topic)
              o.upReel1 cr b ++
            (videoPostSeg (script2 o theme sub_topic) (file2 o theme sub_topic)
                o.upReel2 o.v2Create o.v2PubOk ++
              (imagePostSeg (post_caption o theme sub_topic)
                  (post_file o theme sub_topic) o.upPost o.iCreate o.iPubOk ++
                (carouselSeg (carousel_files o theme sub_topic)
                    (carouselCaption theme sub_topic) o.upCar o.cChild o.cParent
                    o.cPubOk ++ finalEvs))))) := by
  have hs' : schedOf (setV1 o cr b) = some (theme, sub_topic) := hs
  rw [mainRun, hs']
  rfl

/-- On a resolved schedule, the run trace with the reel 2 responses
replaced. -/
lemma mainRun_setV2 (o : MainOracle) (theme sub_topic : Str)
    (hs : schedOf o = some (theme, sub_topic)) (cr : Option Str) (b : Bool) :
    mainRun (setV2 o cr b) =
      Ev.notify startMsg :: Ev.notify (todayMsgOf theme sub_topic) ::
        (preEvs o theme sub_topic ++
          (videoPostSeg (script1 o theme sub_topic) (file1 o theme sub_topic)
              o.upReel1 o.v1Create o.v1PubOk ++
            (videoPostSeg (script2 o theme sub_topic) (file2 o theme sub_topic)
                o.upReel2 cr b ++
              (imagePostSeg (post_caption o theme sub_topic)
                  (post_file o theme sub_topic) o.upPost o.iCreate o.iPubOk ++
                (carouselSeg (carousel_files o theme sub_topic)
                    (carouselCaption theme sub_topic) o.upCar o.cChild o.cParent
                    o.cPubOk ++ finalEvs))))) := by
  have hs' : schedOf (setV2 o cr b) = some (theme, sub_topic) := hs
  rw [mainRun, hs']
  rfl

/-- On a resolved schedule, the run trace with the static-image post responses
replaced. -/
lemma mainRun_setI (o : MainOracle) (theme sub_topic : Str)
    (hs : schedOf o = some (theme, sub_topic)) (cr : Option Str) (b : Bool) :
    mainRun (setI o cr b) =
      Ev.notify startMsg :: Ev.notify (todayMsgOf theme sub_topic) ::
        (preEvs o theme sub_topic ++
          (videoPostSeg (script1 o theme sub_topic) (file1 o theme sub_topic)
              o.upReel1 o.v1Create o.v1PubOk ++
            (videoPostSeg (script2 o theme sub_topic) (file2 o theme sub_topic)
                o.upReel2 o.v2Create o.v2PubOk ++
              (imagePostSeg (post_caption o theme sub_topic)
                  (post_file o theme sub_topic) o.upPost cr b ++
                (carouselSeg (carousel_files o theme sub_topic)
                    (carouselCaption theme sub_topic) o.upCar o.cChild o.cParent
                    o.cPubOk ++ finalEvs))))) := by
  have hs' : schedOf (setI o cr b) = some (theme, sub_topic) := hs
  rw [mainRun, hs']
  rfl

/-- When every in-range child create call returns an `id`, the child loop
completes with some id list. -/
lemma carouselChildLoop_success (childResp : Nat → Option Str) (urls : List Str)
    (k0 : Nat) (h : ∀ j, j < urls.length → ∃ c, childResp (k0 + j) = some c) :
    ∃ ids, (carouselChildLoop childResp k0 urls).2 = some ids := by
  induction urls generalizing k0 with
  | nil => exact ⟨[], rfl⟩
  | cons url rest ih =>
    rcases h 0 (by simp) with ⟨c, hc⟩
    rw [Nat.add_zero] at hc
    rw [carouselChildLoop, hc]
    rcases ih (k0 + 1) (fun j hj => by
      rcases h (j + 1) (by simp only [List.length_cons]; omega) with ⟨c', hc'⟩
      exact ⟨c', by rw [show k0 + 1 + j = k0 + (j + 1) by omega]; exact hc'⟩)
      with ⟨ids, hids⟩
    exact ⟨c :: ids, by simp [hids]⟩

/-- C10: each of the three publisher functions returns no success/failure
indicator and never raises — each is embedded as a total function returning
only its event trace, the all-catching `except` block reporting every failure
through the Notifier.  Consequently the orchestrator cannot observe a publish
failure: for each cooldown-guarded post (reel 1, reel 2, static image),
whenever that post renders and its upload succeeds, the run trace decomposes
around that publisher trace followed by the 120-second cooldown, with a
prefix and remainder that are the same for every create response `cr` and
every publish outcome `b` — the cooldown is taken even when the publish call
failed.  The final three conjuncts exhibit the caught-and-reported publish
failure of each publisher (video, image, carousel). -/
theorem C10_publisher_opaque_cooldown_after_upload (o : MainOracle)
    (theme sub_topic : Str) (hs : schedOf o = some (theme, sub_topic)) :
    (∀ f url, file1 o theme sub_topic = some f → o.upReel1 = some url →
      ∃ pre rest, ∀ cr b,
        mainRun (setV1 o cr b) =
          pre ++ (post_video_to_instagram url (script1 o theme sub_topic) cr b ++
            Ev.sleep 120 :: rest)) ∧
    (∀ f url, file2 o theme sub_topic = some f → o.upReel2 = some url →
      ∃ pre rest, ∀ cr b,
        mainRun (setV2 o cr b) =
          pre ++ (post_video_to_instagram url (script2 o theme sub_topic) cr b ++
            Ev.sleep 120 :: rest)) ∧
    (∀ f url, post_file o theme sub_topic = some f → o.upPost = some url →
      ∃ pre rest, ∀ cr b,
        mainRun (setI o cr b) =
          pre ++ (post_image_to_instagram url (post_caption o theme sub_topic) cr b ++
            Ev.sleep 120 :: rest)) ∧
    (∀ url caption cid, Ev.notify (reelErrPfx ++ publishVideoFailedMsg) ∈
      post_video_to_instagram url caption (some cid) false) ∧
    (∀ url caption cid, Ev.notify (imageErrPfx ++ publishImageFailedMsg) ∈
      post_image_to_instagram url caption (some cid) false) ∧
    (∀ urls caption (childResp : Nat → Option Str) cid,
      (∀ j, j < urls.length → ∃ c, childResp j = some c) →
      Ev.notify (carouselErrPfx ++ publishCarouselFailedMsg) ∈
        post_carousel_to_instagram urls caption childResp (some cid) false) := by
  refine ⟨?_, ?_, ?_, ?_, ?_, ?_⟩
  · intro f url hf hu
    refine ⟨Ev.notify startMsg :: Ev.notify (todayMsgOf theme sub_topic) ::
      preEvs o theme sub_topic,
      videoPostSeg (script2 o theme sub_topic) (file2 o theme sub_topic)
          o.upReel2 o.v2Create o.v2PubOk ++
        (imagePostSeg (post_caption o theme sub_topic) (post_file o theme sub_topic)
            o.upPost o.iCreate o.iPubOk ++
          (carouselSeg (carousel_files o theme sub_topic)
              (carouselCaption theme sub_topic) o.upCar o.cChild o.cParent o.cPubOk ++
            finalEvs)), ?_⟩
    intro cr b
    rw [mainRun_setV1 o theme sub_topic hs cr b, hf, hu, videoPostSeg_some]
    simp [List.append_assoc]
  · intro f url hf hu
    refine ⟨Ev.notify startMsg :: Ev.notify (todayMsgOf theme sub_topic) ::
      (preEvs o theme sub_topic ++
        videoPostSeg (script1 o theme sub_topic) (file1 o theme sub_topic)
          o.upReel1 o.v1Create o.v1PubOk),
      imagePostSeg (post_caption o theme sub_topic) (post_file o theme sub_topic)
          o.upPost o.iCreate o.iPubOk ++
        (carouselSeg (carousel_files o theme sub_topic)
            (carouselCaption theme sub_topic) o.upCar o.cChild o.cParent o.cPubOk ++
          finalEvs), ?_⟩
    intro cr b
    rw [mainRun_setV2 o theme sub_topic hs cr b, hf, hu, videoPostSeg_some]
    simp [List.append_assoc]
  · intro f url hf hu
    refine ⟨Ev.notify startMsg :: Ev.notify (todayMsgOf theme sub_topic) ::
      (preEvs o theme sub_topic ++
        (videoPostSeg (script1 o theme sub_topic) (file1 o theme sub_topic)
            o.upReel1 o.v1Create o.v1PubOk ++
          videoPostSeg (script2 o theme sub_topic) (file2 o theme sub_topic)
            o.upReel2 o.v2Create o.v2PubOk)),
      carouselSeg (carousel_files o theme sub_topic)
          (carouselCaption theme sub_topic) o.upCar o.cChild o.cParent o.cPubOk ++
        finalEvs, ?_⟩
    intro cr b
    rw [mainRun_setI o theme sub_topic hs cr b, hf, hu, imagePostSeg_some]
    simp [List.append_assoc]
  · intro url caption cid
    simp [post_video_to_instagram, failEvents]
  · intro url caption cid
    simp [post_image_to_instagram, failEvents]
  · intro urls caption childResp cid hchild
    have hchild0 : ∀ j, j < urls.length → ∃ c, childResp (0 + j) = some c := by
      simpa using hchild
    rcases carouselChildLoop_success childResp urls 0 hchild0 with ⟨ids, hids⟩
    have htr : post_carousel_to_instagram urls caption childResp (some cid) false =
        (carouselChildLoop childResp 0 urls).1 ++
          (Ev.createParent ids caption :: Ev.publish cid ::
            failEvents carouselErrPfx publishCarouselFailedMsg) := by
      simp only [post_carousel_to_instagram, hids]
      rfl
    rw [htr]
    apply List.mem_append_right
    simp [failEvents]

/-- A concrete run for the C10 witness: like `oW`, but the static-image render
and upload also succeed, so all three cooldown-guarded posts reach their
publisher. -/
def oW2 : MainOracle :=
  ⟨some [Row.mk (['1']) (['T']) (['a'])], 1, 0,
   none, none, none, none, none, none, none,
   true, true, true, true,
   true, false, false, false, false,
   some (['u', '1']), some (['u', '2']), some (['u', '3']), fun _ => none,
   some (['c', '1']), true, some (['c', '2']), true, some (['c', '3']), true,
   fun _ => some (['k']), none, true⟩

/-- Witness for C10 at the concrete run `oW2`, exercising every hypothesis:
all three posts render and upload, and each publisher reports a failed
publish through the Notifier. -/
theorem C10_publisher_opaque_cooldown_after_upload_witness :
    schedOf oW2 = some ((['T']), (['a'])) ∧
    file1 oW2 (['T']) (['a']) = some (("reel1.mp4").toList) ∧
    oW2.upReel1 = some (['u', '1']) ∧
    file2 oW2 (['T']) (['a']) = some (("reel2.mp4").toList) ∧
    oW2.upReel2 = some (['u', '2']) ∧
    post_file oW2 (['T']) (['a']) = some (("post.png").toList) ∧
    oW2.upPost = some (['u', '3']) ∧
    (∃ pre rest, ∀ cr b,
      mainRun (setV1 oW2 cr b) =
        pre ++ (post_video_to_instagram (['u', '1']) (script1 oW2 (['T']) (['a'])) cr b ++
          Ev.sleep 120 :: rest)) ∧
    (∃ pre rest, ∀ cr b,
      mainRun (setV2 oW2 cr b) =
        pre ++ (post_video_to_instagram (['u', '2']) (script2 oW2 (['T']) (['a'])) cr b ++
          Ev.sleep 120 :: rest)) ∧
    (∃ pre rest, ∀ cr b,
      mainRun (setI oW2 cr b) =
        pre ++ (post_image_to_instagram (['u', '3']) (post_caption oW2 (['T']) (['a'])) cr b ++
          Ev.sleep 120 :: rest)) ∧
    Ev.notify (reelErrPfx ++ publishVideoFailedMsg) ∈
      post_video_to_instagram (['u', '1']) (['c']) (some (['x'])) false ∧
    Ev.notify (imageErrPfx ++ publishImageFailedMsg) ∈
      post_image_to_instagram (['u', '3']) (['c']) (some (['x'])) false ∧
    Ev.notify (carouselErrPfx ++ publishCarouselFailedMsg) ∈
      post_carousel_to_instagram [['u']] (['c']) (fun _ => some (['k']))
        (some (['x'])) false := by
  have H := C10_publisher_opaque_cooldown_after_upload oW2 (['T']) (['a']) (by decide)
  refine ⟨by decide, by decide, rfl, by decide, rfl, by decide, rfl,
    ?_, ?_, ?_, ?_, ?_, ?_⟩
  · exact H.1 (("reel1.mp4").toList) (['u', '1']) (by decide) rfl
  · exact H.2.1 (("reel2.mp4").toList) (['u', '2']) (by decide) rfl
  · exact H.2.2.1 (("post.png").toList) (['u', '3']) (by decide) rfl
  · exact H.2.2.2.1 (['u', '1']) (['c']) (['x'])
  · exact H.2.2.2.2.1 (['u', '3']) (['c']) (['x'])
  · exact H.2.2.2.2.2 [['u']] (['c']) (fun _ => some (['k'])) (['x'])
      (fun j hj => ⟨(['k']), rfl⟩)

end Insta
